import Mathlib

/-!
# terraform-provider-vaultsec: secret resolution

A shallow embedding of `src/provider/vaultsec_secret_ephemeral_resource.go`
(`Open`, `randomPassword`) and `src/provider/vaultsec_secret_version_data_source.go`
(`Read`), followed by theorems about them.

Modelling conventions

* A Go `string` is its sequence of bytes (`len`, indexing and `[]byte` conversion all
  work on bytes), so a "character" of a Go string is one byte.
* A Go runtime panic is the `Except.error` outcome of the `Go` monad.
* Targets are 64-bit: `int` and `int64` coincide, `int(x)` of an `int64` is the identity.
* `make([]byte, n)` panics for `n < 0` and for `n` above the allocation limit `maxAlloc` of
  the runtime; up to that limit the heap is taken to have room.
* The libraries the code calls are the environment, see `Runtime`.
-/

namespace Vaultsec

/-! ## Go runtime -/

/-- A Go `string`: a finite sequence of bytes. -/
abbrev GoString := List UInt8

/-- The bytes (UTF-8) of a string literal of the source. -/
def goStr (s : String) : GoString := s.toUTF8.data.toList

/-- The run-time panics the embedded code can raise. -/
inductive GoPanic
  /-- a method call or field access through a nil pointer -/
  | nilDereference
  /-- an unchecked type assertion `x.(T)` on a value that is not a `T` -/
  | typeAssertion
  /-- `make([]byte, n)` with `n < 0` or `n` above `maxAlloc` ("makeslice: len out of range") -/
  | makesliceLen
  /-- `(*rand.Rand).Intn(n)` with `n <= 0` -/
  | intnArgument
  /-- `s[i]` with `i` outside `0 .. len(s) - 1` -/
  | indexOutOfRange
  deriving DecidableEq, Repr

/-- A Go computation: a value, or a panic that unwinds the call. -/
abbrev Go := Except GoPanic

/-- `s[i]` on a string: the byte at index `i`, a panic outside the bounds. -/
def byteAt (s : GoString) (i : Nat) : Go UInt8 :=
  match s.get? i with
  | some c => pure c
  | none => throw GoPanic.indexOutOfRange

/-- `seed.Intn(n)`: panics when `n <= 0`, else a value in `[0, n)`. The value the source
produces on this call is `raw`, reduced into the interval; as `raw` ranges over the naturals
the result ranges over all of `[0, n)`. -/
def Intn (raw : Nat) (n : Int) : Go Nat :=
  if n ≤ 0 then throw GoPanic.intnArgument else pure (raw % n.toNat)

/-! ## Decoded JSON (`interface{}` values built by `encoding/json`) -/

/-- What `json.Unmarshal` stores in an `interface{}`: `nil`, `bool`, `float64`, `string`,
`[]interface{}` or `map[string]interface{}`. A `float64` decoded from JSON is finite and is
given by its exact rational value. A map is given by an association list, read by its first
binding of a key. -/
inductive JVal
  | null
  | bool (b : Bool)
  | float64 (f : Rat)
  | string (s : GoString)
  | array (xs : List JVal)
  | object (m : List (GoString × JVal))

/-- A `map[string]interface{}`; the nil map has no entry. -/
abbrev JMap := List (GoString × JVal)

/-- `m[k]` on a `map[string]interface{}`: the nil interface when the key is absent. -/
def mapIndex (m : JMap) (k : GoString) : JVal :=
  match m.lookup k with
  | some v => v
  | none => JVal.null

/-- `x.(map[string]interface{})`, unchecked. -/
def assertMap : JVal → Go JMap
  | JVal.object m => pure m
  | _ => throw GoPanic.typeAssertion

/-- `x.(string)`, unchecked. -/
def assertString : JVal → Go GoString
  | JVal.string s => pure s
  | _ => throw GoPanic.typeAssertion

/-- `x.(float64)`, unchecked. -/
def assertFloat64 : JVal → Go Rat
  | JVal.float64 f => pure f
  | _ => throw GoPanic.typeAssertion

/-! ## Numeric conversion -/

/-- Smallest `int64`. -/
def minInt64 : Int := -(2 ^ 63)

/-- Largest `int64`. -/
def maxInt64 : Int := 2 ^ 63 - 1

/-- Discard the fraction of a rational (round toward zero). -/
def truncate (f : Rat) : Int := Int.tdiv f.num f.den

/-- The value is representable as an `int64`. -/
def fitsInt64 (z : Int) : Prop := minInt64 ≤ z ∧ z ≤ maxInt64

instance (z : Int) : Decidable (fitsInt64 z) := by
  unfold fitsInt64; infer_instance

/-- Reduce an integer into the `int64` range (two's complement). -/
def wrapInt64 (z : Int) : Int := (z + 2 ^ 63) % 2 ^ 64 - 2 ^ 63

/-- `int64(f)` for a `float64` `f`: the fraction is discarded; when the truncated value is
not representable the conversion still succeeds with an implementation-dependent `int64`,
here `outOfRange f` reduced into the range. -/
def float64ToInt64 (outOfRange : Rat → Int) (f : Rat) : Int :=
  if fitsInt64 (truncate f) then truncate f else wrapInt64 (outOfRange f)

/-! ## Plugin framework values -/

/-- `types.String` of the plugin framework: null, unknown, or a known string. -/
inductive TfString
  | null
  | unknown
  | known (v : GoString)
  deriving DecidableEq

/-- `types.String.ValueString`: the known value, `""` for null and unknown. -/
def TfString.ValueString : TfString → GoString
  | TfString.known v => v
  | _ => []

/-- `types.Int64` of the plugin framework: null, unknown, or a known integer. -/
inductive TfInt64
  | null
  | unknown
  | known (v : Int)
  deriving DecidableEq

/-- `types.Int64.ValueInt64`: the known value, `0` for null and unknown. -/
def TfInt64.ValueInt64 : TfInt64 → Int
  | TfInt64.known v => v
  | _ => 0

/-- Severity of a diagnostic. -/
inductive Severity
  | error
  | warning
  deriving DecidableEq

/-- One entry of `diag.Diagnostics`. -/
structure Diagnostic where
  severity : Severity
  summary : GoString
  detail : GoString
  deriving DecidableEq

/-- `Diagnostics.HasError`. -/
def HasError (ds : List Diagnostic) : Bool :=
  ds.any fun d => decide (d.severity = Severity.error)

/-- `Diagnostics.AddError`. -/
def AddError (ds : List Diagnostic) (summary detail : GoString) : List Diagnostic :=
  ds ++ [{ severity := Severity.error, summary := summary, detail := detail }]

/-! ## Data model of the provider -/

/-- `VaultsecProviderModel` (provider.go). -/
structure VaultsecProviderModel where
  Address : TfString
  Token : TfString
  deriving DecidableEq

/-- `VaultSecretEphemeralResourceModel`. -/
structure VaultSecretEphemeralResourceModel where
  Mount : TfString
  Name : TfString
  Key : TfString
  PasswordLen : TfInt64
  OverrideSpecial : TfString
  Password : TfString
  Version : TfInt64
  deriving DecidableEq

/-- `VaultSecretVersionDataSourceModel`. -/
structure VaultSecretVersionDataSourceModel where
  Mount : TfString
  Name : TfString
  Key : TfString
  Version : TfInt64
  deriving DecidableEq

/-- `VaultSecretEphemeralResource`: `providerData` is nil until `Configure` stores it. -/
structure VaultSecretEphemeralResource where
  providerData : Option VaultsecProviderModel

/-- `VaultSecretVersionDataSource`: `providerData` is nil until `Configure` stores it. -/
structure VaultSecretVersionDataSource where
  providerData : Option VaultsecProviderModel

/-- `ephemeral.OpenRequest`, by what `req.Config.Get(ctx, &model)` yields: the diagnostics it
returns and the decoded model. -/
structure OpenRequest where
  ConfigDiags : List Diagnostic
  Config : VaultSecretEphemeralResourceModel

/-- `ephemeral.OpenResponse`: the diagnostics, and the result when `resp.Result.Set` ran. -/
structure OpenResponse where
  Diagnostics : List Diagnostic
  Result : Option VaultSecretEphemeralResourceModel
  deriving DecidableEq

/-- `datasource.ReadRequest`, by what `req.Config.Get(ctx, &model)` yields. -/
structure ReadRequest where
  ConfigDiags : List Diagnostic
  Config : VaultSecretVersionDataSourceModel

/-- `datasource.ReadResponse`: the diagnostics, and the state when `resp.State.Set` ran. -/
structure ReadResponse where
  Diagnostics : List Diagnostic
  State : Option VaultSecretVersionDataSourceModel
  deriving DecidableEq

/-! ## Environment -/

/-- Outcome of `http.NewRequest` + `Header.Set` + `client.Do` + `io.ReadAll`. -/
inductive Exchange
  /-- `http.NewRequest` returned a nil request (its error is dropped by the code) -/
  | badRequest
  /-- `client.Do` returned `err != nil` with `err.Error() = err` -/
  | transportError (err : GoString)
  /-- a response arrived: its `StatusCode` and the bytes `io.ReadAll` read from its body -/
  | response (StatusCode : Int) (Body : GoString)
  deriving DecidableEq

/-- What the libraries do in one run.

* `exchange url token`: the GET of `url` carrying `X-Vault-Token: token`.
* `Unmarshal body`: the map `result` after `json.Unmarshal(body, &result)` on a nil
  `map[string]interface{}`; the nil map (no entry) when nothing was stored: the body is not
  valid JSON, is not an object, or is `null`.
* `random i`: the raw outcome of the `i`-th call to `seed.Intn`, see `Intn`.
* `outOfRange`: see `float64ToInt64`. -/
structure Runtime where
  exchange : GoString → GoString → Exchange
  Unmarshal : GoString → JMap
  random : Nat → Nat
  outOfRange : Rat → Int

/-! ## `randomPassword` (vaultsec_secret_ephemeral_resource.go, lines 120-134) -/

/-- The literal of line 121. -/
def baseCharset : GoString :=
  goStr "abcdefghijklmnopqrstuvwxyzABCDEFGHIJKLMNOPQRSTUVWXYZ0123456789"

/-- The literal of line 126. -/
def defaultSpecials : GoString := goStr "!@#$%^&*()"

/-- Lines 121-127: the literal, extended by the first variadic argument when there is one
and by the default symbols otherwise. -/
def charsetOf (specials : List GoString) : GoString :=
  match specials with
  | s :: _ => baseCharset ++ s
  | [] => baseCharset ++ defaultSpecials

/-- Upper limit `runtime.maxAlloc` of one allocation on 64-bit targets, `1 << 48` bytes:
`makeslice` panics when the requested size exceeds it. -/
def maxAlloc : Int := 2 ^ 48

/-- Lines 130-132, the iterations `i, i + 1, ..., i + k - 1` of the loop: each one draws
`seed.Intn(len(charset))` and stores `charset[...]` at its index. -/
def fillFrom (random : Nat → Nat) (charset : GoString) : Nat → Nat → Go GoString
  | _, 0 => pure []
  | i, k + 1 => do
    let j ← Intn (random i) charset.length
    let c ← byteAt charset j
    let rest ← fillFrom random charset (i + 1) k
    pure (c :: rest)

/-- `randomPassword(length, specials...)`. `random` is the outcome of the source seeded on
line 128. Line 129, `make([]byte, length)`, panics for a length below 0 or above
`maxAlloc`. -/
def randomPassword (random : Nat → Nat) (length : Int) (specials : List GoString) :
    Go GoString :=
  let charset := charsetOf specials
  if length < 0 ∨ maxAlloc < length then throw GoPanic.makesliceLen
  else fillFrom random charset 0 length.toNat

/-! ## `Open` (vaultsec_secret_ephemeral_resource.go, lines 69-118) -/

/-- Lines 83-86: the key read from the model, `"password"` when it is empty. -/
def effectiveKey (key : GoString) : GoString :=
  if key = [] then goStr "password" else key

/-- Line 92: `fmt.Sprintf("%s/v1/%s/data/%s", address, mount, name)`. -/
def dataURL (address mount name : GoString) : GoString :=
  address ++ goStr "/v1/" ++ mount ++ goStr "/data/" ++ name

/-- `(*VaultSecretEphemeralResource).Open`. The response starts with no diagnostics and no
result; `resp.Result.Set` stores the model. -/
def Open (rt : Runtime) (e : VaultSecretEphemeralResource) (req : OpenRequest) :
    Go OpenResponse :=
  let model := req.Config
  let diags := req.ConfigDiags
  if HasError diags then pure { Diagnostics := diags, Result := none }
  else
    match e.providerData with
    | none => throw GoPanic.nilDereference
    | some providerData =>
      let address := providerData.Address.ValueString
      let token := providerData.Token.ValueString
      let mount := model.Mount.ValueString
      let name := model.Name.ValueString
      let key := effectiveKey model.Key.ValueString
      let length := model.PasswordLen.ValueInt64
      let specials := model.OverrideSpecial.ValueString
      match rt.exchange (dataURL address mount name) token with
      | Exchange.badRequest => throw GoPanic.nilDereference
      | Exchange.transportError err =>
        pure { Diagnostics := AddError diags (goStr "vault request failed") err,
               Result := none }
      | Exchange.response StatusCode body =>
        if StatusCode = 200 then do
          let result := rt.Unmarshal body
          let outer ← assertMap (mapIndex result (goStr "data"))
          let data ← assertMap (mapIndex outer (goStr "data"))
          let password ← assertString (mapIndex data key)
          let outer2 ← assertMap (mapIndex result (goStr "data"))
          let metadata ← assertMap (mapIndex outer2 (goStr "metadata"))
          let version ← assertFloat64 (mapIndex metadata (goStr "version"))
          pure { Diagnostics := diags,
                 Result := some { model with
                   Password := TfString.known password,
                   Version := TfInt64.known (float64ToInt64 rt.outOfRange version) } }
        else do
          let password ← randomPassword rt.random length [specials]
          pure { Diagnostics := diags,
                 Result := some { model with
                   Password := TfString.known password,
                   Version := TfInt64.known 1 } }

/-! ## `Read` (vaultsec_secret_version_data_source.go, lines 56-98) -/

/-- Line 76: `fmt.Sprintf("%s/v1/%s/metadata/%s", address, mount, name)`. -/
def metadataURL (address mount name : GoString) : GoString :=
  address ++ goStr "/v1/" ++ mount ++ goStr "/metadata/" ++ name

/-- `(*VaultSecretVersionDataSource).Read`. The key of lines 70-73 is computed and not
used. -/
def Read (rt : Runtime) (d : VaultSecretVersionDataSource) (req : ReadRequest) :
    Go ReadResponse :=
  let model := req.Config
  let diags := req.ConfigDiags
  if HasError diags then pure { Diagnostics := diags, State := none }
  else
    match d.providerData with
    | none => throw GoPanic.nilDereference
    | some providerData =>
      let address := providerData.Address.ValueString
      let token := providerData.Token.ValueString
      let mount := model.Mount.ValueString
      let name := model.Name.ValueString
      match rt.exchange (metadataURL address mount name) token with
      | Exchange.badRequest => throw GoPanic.nilDereference
      | Exchange.transportError err =>
        pure { Diagnostics := AddError diags (goStr "vault request failed") err,
               State := none }
      | Exchange.response StatusCode body =>
        if StatusCode = 200 then do
          let result := rt.Unmarshal body
          let data ← assertMap (mapIndex result (goStr "data"))
          let version ← assertFloat64 (mapIndex data (goStr "current_version"))
          pure { Diagnostics := diags,
                 State := some { model with
                   Version := TfInt64.known (float64ToInt64 rt.outOfRange version) } }
        else
          pure { Diagnostics := diags,
                 State := some { model with Version := TfInt64.known 0 } }

/-! ## The response shapes, as the specification words them -/

/-- The value-read body `{ data: { data: { <key>: <string> }, metadata: { version: <number> } } }`:
the string at `data.data[key]` and the number at `data.metadata.version` when the decoded
body has this shape, `none` when `data`, `data.data` or `data.metadata` is absent or not an
object, `data.data[key]` is absent or not a string, or `data.metadata.version` is absent or
not a number. -/
def envelope (key : GoString) (result : JMap) : Option (GoString × Rat) :=
  match mapIndex result (goStr "data") with
  | JVal.object outer =>
    match mapIndex outer (goStr "data"), mapIndex outer (goStr "metadata") with
    | JVal.object inner, JVal.object metadata =>
      match mapIndex inner key, mapIndex metadata (goStr "version") with
      | JVal.string value, JVal.float64 version => some (value, version)
      | _, _ => none
    | _, _ => none
  | _ => none

/-- The version-read body `{ data: { current_version: <number> } }`: the number when the
decoded body has this shape. -/
def versionEnvelope (result : JMap) : Option Rat :=
  match mapIndex result (goStr "data") with
  | JVal.object data =>
    match mapIndex data (goStr "current_version") with
    | JVal.float64 version => some version
    | _ => none
  | _ => none

/-- The combined character set as the specification words it: the base symbols followed by
the override when a non-empty override is supplied, by the default symbols otherwise. -/
def specCharset (override : GoString) : GoString :=
  baseCharset ++ (if override = [] then defaultSpecials else override)

/-- A status that indicates success (2xx). -/
def isSuccess (status : Int) : Prop := 200 ≤ status ∧ status < 300

instance (status : Int) : Decidable (isSuccess status) := by
  unfold isSuccess; infer_instance

/-- Reference function for the Version Resolver, from the specification: on status 200 with
a body of the shape `{ data: { current_version: <number> } }` that number as an integer; on
every non-success status the sentinel `0`. `none` where these two sentences say nothing. -/
def specResolveVersion (status : Int) (result : JMap) : Option Int :=
  if status = 200 then (versionEnvelope result).map truncate
  else if isSuccess status then none
  else some 0

/-! ## Sample runs -/

/-- The value-read body of the specification's example. -/
def sampleValueBody : GoString :=
  goStr "\x7b\"data\":\x7b\"data\":\x7b\"password\":\"p@ss\"\x7d,\"metadata\":\x7b\"version\":3\x7d\x7d\x7d"

/-- What `sampleValueBody` decodes to. -/
def sampleValueResult : JMap :=
  [(goStr "data", JVal.object
    [(goStr "data", JVal.object [(goStr "password", JVal.string (goStr "p@ss"))]),
     (goStr "metadata", JVal.object [(goStr "version", JVal.float64 3)])])]

/-- A value-read body whose `data.metadata.version` is a string. -/
def sampleMalformedBody : GoString :=
  goStr "\x7b\"data\":\x7b\"data\":\x7b\"password\":\"p@ss\"\x7d,\"metadata\":\x7b\"version\":\"3\"\x7d\x7d\x7d"

/-- What `sampleMalformedBody` decodes to. -/
def sampleMalformedResult : JMap :=
  [(goStr "data", JVal.object
    [(goStr "data", JVal.object [(goStr "password", JVal.string (goStr "p@ss"))]),
     (goStr "metadata", JVal.object [(goStr "version", JVal.string (goStr "3"))])])]

/-- A value-read body whose version is `1 << 63`, one more than the largest `int64`. -/
def sampleHugeValueBody : GoString :=
  goStr "\x7b\"data\":\x7b\"data\":\x7b\"password\":\"p@ss\"\x7d,\"metadata\":\x7b\"version\":9223372036854775808\x7d\x7d\x7d"

/-- What `sampleHugeValueBody` decodes to (`1 << 63` is a `float64`). -/
def sampleHugeValueResult : JMap :=
  [(goStr "data", JVal.object
    [(goStr "data", JVal.object [(goStr "password", JVal.string (goStr "p@ss"))]),
     (goStr "metadata", JVal.object [(goStr "version", JVal.float64 9223372036854775808)])])]

/-- A version-read body whose version is `1 << 63`. -/
def sampleHugeVersionBody : GoString :=
  goStr "\x7b\"data\":\x7b\"current_version\":9223372036854775808\x7d\x7d"

/-- What `sampleHugeVersionBody` decodes to. -/
def sampleHugeVersionResult : JMap :=
  [(goStr "data", JVal.object [(goStr "current_version", JVal.float64 9223372036854775808)])]

/-- The version-read body of the specification's example. -/
def sampleVersionBody : GoString :=
  goStr "\x7b\"data\":\x7b\"current_version\":7\x7d\x7d"

/-- What `sampleVersionBody` decodes to. -/
def sampleVersionResult : JMap :=
  [(goStr "data", JVal.object [(goStr "current_version", JVal.float64 7)])]

/-- The decoder on the sample bodies; every other body is taken as not decodable. -/
def sampleUnmarshal (body : GoString) : JMap :=
  if body = sampleValueBody then sampleValueResult
  else if body = sampleMalformedBody then sampleMalformedResult
  else if body = sampleVersionBody then sampleVersionResult
  else if body = sampleHugeValueBody then sampleHugeValueResult
  else if body = sampleHugeVersionBody then sampleHugeVersionResult
  else []

/-- A run in which every request meets the outcome `x` and the random source yields
`random`; a `float64` outside the `int64` range converts to the smallest `int64`, as on
amd64. -/
def sampleRuntime (x : Exchange) (random : Nat → Nat) : Runtime :=
  { exchange := fun _ _ => x
    Unmarshal := sampleUnmarshal
    random := random
    outOfRange := fun _ => minInt64 }

/-- The characters of the charset for the override `é`: the 62 base symbols and `é`. -/
def sampleAccentedCharset : List Char :=
  "abcdefghijklmnopqrstuvwxyzABCDEFGHIJKLMNOPQRSTUVWXYZ0123456789é".toList

/-- A configured provider. -/
def sampleProvider : VaultsecProviderModel :=
  { Address := TfString.known (goStr "http://127.0.0.1:8200")
    Token := TfString.known (goStr "root") }

/-- A request for `secret/db` with the given key, length and override. -/
def sampleOpenRequest (key : TfString) (passwordLen : TfInt64) (overrideSpecial : TfString) :
    OpenRequest :=
  { ConfigDiags := []
    Config :=
      { Mount := TfString.known (goStr "secret")
        Name := TfString.known (goStr "db")
        Key := key
        PasswordLen := passwordLen
        OverrideSpecial := overrideSpecial
        Password := TfString.null
        Version := TfInt64.null } }

/-- A version request for `secret/db`. -/
def sampleReadRequest : ReadRequest :=
  { ConfigDiags := []
    Config :=
      { Mount := TfString.known (goStr "secret")
        Name := TfString.known (goStr "db")
        Key := TfString.null
        Version := TfInt64.null } }

/-! ## Lemmas on the generator -/

theorem baseCharset_length : baseCharset.length = 62 := by decide

theorem defaultSpecials_length : defaultSpecials.length = 10 := by decide

theorem charsetOf_length_pos (specials : List GoString) : 0 < (charsetOf specials).length := by
  cases specials with
  | nil => simp [charsetOf, baseCharset_length]
  | cons s rest => simp [charsetOf, baseCharset_length]

theorem Intn_length (raw : Nat) (charset : GoString) (h : 0 < charset.length) :
    Intn raw charset.length = Except.ok (raw % charset.length) := by
  have hn : ¬ ((charset.length : Int) ≤ 0) := by omega
  simp [Intn, hn, pure, Except.pure]

theorem byteAt_lt (s : GoString) (i : Nat) (h : i < s.length) :
    byteAt s i = Except.ok (s.get ⟨i, h⟩) := by
  simp [byteAt, List.getElem?_eq_getElem h, pure, Except.pure]

/-- One iteration of the loop on a non-empty charset. -/
theorem fillFrom_succ (random : Nat → Nat) (charset : GoString) (h : 0 < charset.length)
    (i k : Nat) :
    fillFrom random charset i (k + 1) =
      (fillFrom random charset (i + 1) k).map
        (fun rest => charset.get ⟨random i % charset.length, Nat.mod_lt _ h⟩ :: rest) := by
  rw [fillFrom, Intn_length _ _ h]
  simp only [bind, Except.bind]
  rw [byteAt_lt _ _ (Nat.mod_lt _ h)]
  cases fillFrom random charset (i + 1) k <;> rfl

/-- The loop never panics on a non-empty charset; it stores `k` bytes of the charset. -/
theorem fillFrom_spec (random : Nat → Nat) (charset : GoString) (h : 0 < charset.length)
    (k : Nat) : ∀ i : Nat, ∃ pw : GoString,
      fillFrom random charset i k = Except.ok pw ∧ pw.length = k ∧ ∀ c ∈ pw, c ∈ charset := by
  induction k with
  | zero => intro i; exact ⟨[], rfl, rfl, by simp⟩
  | succ k ih =>
    intro i
    obtain ⟨rest, hrest, hlen, hmem⟩ := ih (i + 1)
    refine ⟨charset.get ⟨random i % charset.length, Nat.mod_lt _ h⟩ :: rest, ?_, ?_, ?_⟩
    · rw [fillFrom_succ _ _ h, hrest]; rfl
    · simp [hlen]
    · intro c hc
      rcases List.mem_cons.mp hc with hc | hc
      · rw [hc]; exact List.get_mem _ _ _
      · exact hmem c hc

/-- Within the bounds of `make` the generator is its loop. -/
theorem randomPassword_of_bounds (random : Nat → Nat) (length : Int)
    (specials : List GoString) (hlen : 0 ≤ length) (hmax : length ≤ maxAlloc) :
    randomPassword random length specials =
      fillFrom random (charsetOf specials) 0 length.toNat := by
  have hneg : ¬ (length < 0 ∨ maxAlloc < length) := by omega
  unfold randomPassword
  exact if_neg hneg

/-- Outside the bounds of `make` the generator panics. -/
theorem randomPassword_out_of_bounds (random : Nat → Nat) (length : Int)
    (specials : List GoString) (h : length < 0 ∨ maxAlloc < length) :
    randomPassword random length specials = Except.error GoPanic.makesliceLen := by
  unfold randomPassword
  exact if_pos h

/-- The generator on a length from 0 to `maxAlloc`: no panic, `length` bytes, each from the
charset. -/
theorem randomPassword_spec (random : Nat → Nat) (length : Int) (specials : List GoString)
    (hlen : 0 ≤ length) (hmax : length ≤ maxAlloc) :
    ∃ pw : GoString, randomPassword random length specials = Except.ok pw ∧
      (pw.length : Int) = length ∧ ∀ c ∈ pw, c ∈ charsetOf specials := by
  obtain ⟨pw, hpw, hl, hmem⟩ :=
    fillFrom_spec random (charsetOf specials) (charsetOf_length_pos specials) length.toNat 0
  refine ⟨pw, ?_, ?_, hmem⟩
  · rw [randomPassword_of_bounds random length specials hlen hmax, hpw]
  · rw [hl]; exact Int.toNat_of_nonneg hlen

/-- The set the code draws from lies in the set the specification names. -/
theorem mem_specCharset_of_mem (override : GoString) (c : UInt8)
    (h : c ∈ baseCharset ++ override) : c ∈ specCharset override := by
  unfold specCharset
  by_cases ho : override = []
  · subst ho
    simp only [List.append_nil] at h
    simp [h]
  · simpa [ho] using h

/-- Every byte of the charset is drawn for some outcome of the random source. -/
theorem randomPassword_attains (specials : List GoString) (j : Nat)
    (hj : j < (charsetOf specials).length) :
    randomPassword (fun _ => j) 1 specials =
      Except.ok [(charsetOf specials).get ⟨j, hj⟩] := by
  have hpos : 0 < (charsetOf specials).length := charsetOf_length_pos specials
  have hstep := fillFrom_succ (fun _ => j) (charsetOf specials) hpos 0 0
  have hone : randomPassword (fun _ => j) 1 specials =
      fillFrom (fun _ => j) (charsetOf specials) 0 1 :=
    randomPassword_of_bounds (fun _ => j) 1 specials (by decide) (by decide)
  rw [hone, hstep]
  simp [fillFrom, Except.map, pure, Except.pure, Nat.mod_eq_of_lt hj]

/-! ## Lemmas on the resolvers -/

/-- Discarding the fraction rounds toward zero: down for a number `>= 0`, up below. -/
theorem truncate_eq_floor_or_ceil (f : Rat) :
    truncate f = if 0 ≤ f then ⌊f⌋ else ⌈f⌉ := by
  unfold truncate
  split
  · rename_i h
    rw [Rat.floor_def, Int.tdiv_eq_ediv (Rat.num_nonneg.mpr h) (by positivity)]
  · rename_i h
    have hneg : 0 ≤ -f.num := by
      have := Rat.num_neg.mpr (not_le.mp h)
      omega
    have h1 : f.num.tdiv (f.den : Int) = -((-f.num).tdiv (f.den : Int)) := by
      rw [Int.neg_tdiv, neg_neg]
    have h2 : ⌈f⌉ = -⌊-f⌋ := by rw [Int.floor_neg, neg_neg]
    rw [h1, Int.tdiv_eq_ediv hneg (by positivity), h2, Rat.floor_def]
    simp


theorem float64ToInt64_of_fits (outOfRange : Rat → Int) (f : Rat) (h : fitsInt64 (truncate f)) :
    float64ToInt64 outOfRange f = truncate f := by
  simp [float64ToInt64, h]

theorem wrapInt64_fits (z : Int) : fitsInt64 (wrapInt64 z) := by
  unfold fitsInt64 wrapInt64 minInt64 maxInt64
  constructor <;> omega

/-- The converted value always is an `int64`. -/
theorem float64ToInt64_fits (outOfRange : Rat → Int) (f : Rat) :
    fitsInt64 (float64ToInt64 outOfRange f) := by
  unfold float64ToInt64
  split
  · assumption
  · exact wrapInt64_fits _

/-- The shape, spelled out field by field. -/
theorem envelope_eq_some_iff (key : GoString) (result : JMap) (value : GoString)
    (version : Rat) :
    envelope key result = some (value, version) ↔
      ∃ outer inner metadata,
        mapIndex result (goStr "data") = JVal.object outer ∧
        mapIndex outer (goStr "data") = JVal.object inner ∧
        mapIndex inner key = JVal.string value ∧
        mapIndex outer (goStr "metadata") = JVal.object metadata ∧
        mapIndex metadata (goStr "version") = JVal.float64 version := by
  unfold envelope
  constructor
  · intro h
    split at h
    · rename_i outer houter
      split at h
      · rename_i inner metadata hinner hmeta
        split at h
        · rename_i v f hv hf
          simp only [Option.some.injEq, Prod.mk.injEq] at h
          obtain ⟨rfl, rfl⟩ := h
          exact ⟨outer, inner, metadata, houter, hinner, hv, hmeta, hf⟩
        · exact absurd h (by simp)
      · exact absurd h (by simp)
    · exact absurd h (by simp)
  · rintro ⟨outer, inner, metadata, h1, h2, h3, h4, h5⟩
    simp [h1, h2, h3, h4, h5]

/-- `Open` on a response with status 200: the envelope when the decoded body has the shape,
a type-assertion panic when it has not. -/
theorem Open_found (rt : Runtime) (e : VaultSecretEphemeralResource) (req : OpenRequest)
    (pd : VaultsecProviderModel) (body : GoString)
    (hcfg : HasError req.ConfigDiags = false) (hpd : e.providerData = some pd)
    (hx : rt.exchange
        (dataURL pd.Address.ValueString req.Config.Mount.ValueString req.Config.Name.ValueString)
        pd.Token.ValueString = Exchange.response 200 body) :
    Open rt e req =
      match envelope (effectiveKey req.Config.Key.ValueString) (rt.Unmarshal body) with
      | some (value, version) =>
        Except.ok { Diagnostics := req.ConfigDiags,
                    Result := some { req.Config with
                      Password := TfString.known value,
                      Version := TfInt64.known (float64ToInt64 rt.outOfRange version) } }
      | none => Except.error GoPanic.typeAssertion := by
  have hopen : Open rt e req =
      (do
        let outer ← assertMap (mapIndex (rt.Unmarshal body) (goStr "data"))
        let data ← assertMap (mapIndex outer (goStr "data"))
        let password ← assertString (mapIndex data (effectiveKey req.Config.Key.ValueString))
        let outer2 ← assertMap (mapIndex (rt.Unmarshal body) (goStr "data"))
        let metadata ← assertMap (mapIndex outer2 (goStr "metadata"))
        let version ← assertFloat64 (mapIndex metadata (goStr "version"))
        pure { Diagnostics := req.ConfigDiags,
               Result := some { req.Config with
                 Password := TfString.known password,
                 Version := TfInt64.known (float64ToInt64 rt.outOfRange version) } }) := by
    simp [Open, hcfg, hpd, hx]
  rw [hopen]
  unfold envelope
  cases h1 : mapIndex (rt.Unmarshal body) (goStr "data") with
  | object outer =>
    simp only [assertMap, bind, Except.bind, pure, Except.pure]
    cases h2 : mapIndex outer (goStr "data") with
    | object inner =>
      cases h4 : mapIndex outer (goStr "metadata") with
      | object metadata =>
        cases h3 : mapIndex inner (effectiveKey req.Config.Key.ValueString) <;>
          cases h5 : mapIndex metadata (goStr "version") <;>
          simp [assertMap, assertString, assertFloat64, h3, h4, h5, throw, throwThe,
            MonadExceptOf.throw, pure, Except.pure]
      | _ =>
        cases h3 : mapIndex inner (effectiveKey req.Config.Key.ValueString) <;>
          simp [assertMap, assertString, h3, h4, throw, throwThe, MonadExceptOf.throw,
            pure, Except.pure]
    | _ =>
      cases h4 : mapIndex outer (goStr "metadata") <;>
        simp [assertMap, h2, h4, throw, throwThe, MonadExceptOf.throw]
  | _ => simp [assertMap, bind, Except.bind, throw, throwThe, MonadExceptOf.throw]

/-- `Open` on a response with any other status: the generated password and version 1, or
the panic of the generator. -/
theorem Open_fallback (rt : Runtime) (e : VaultSecretEphemeralResource) (req : OpenRequest)
    (pd : VaultsecProviderModel) (status : Int) (body : GoString)
    (hcfg : HasError req.ConfigDiags = false) (hpd : e.providerData = some pd)
    (hx : rt.exchange
        (dataURL pd.Address.ValueString req.Config.Mount.ValueString req.Config.Name.ValueString)
        pd.Token.ValueString = Exchange.response status body)
    (hstatus : status ≠ 200) :
    Open rt e req =
      (randomPassword rt.random req.Config.PasswordLen.ValueInt64
          [req.Config.OverrideSpecial.ValueString]).map
        (fun password =>
          { Diagnostics := req.ConfigDiags,
            Result := some { req.Config with
              Password := TfString.known password,
              Version := TfInt64.known 1 } }) := by
  simp only [Open, hcfg, hpd, hx, hstatus]
  cases randomPassword rt.random req.Config.PasswordLen.ValueInt64
      [req.Config.OverrideSpecial.ValueString] <;> rfl

/-- `Read` on a response with status 200: the version when the decoded body has the shape, a
type-assertion panic when it has not. -/
theorem Read_found (rt : Runtime) (d : VaultSecretVersionDataSource) (req : ReadRequest)
    (pd : VaultsecProviderModel) (body : GoString)
    (hcfg : HasError req.ConfigDiags = false) (hpd : d.providerData = some pd)
    (hx : rt.exchange
        (metadataURL pd.Address.ValueString req.Config.Mount.ValueString
          req.Config.Name.ValueString)
        pd.Token.ValueString = Exchange.response 200 body) :
    Read rt d req =
      match versionEnvelope (rt.Unmarshal body) with
      | some version =>
        Except.ok { Diagnostics := req.ConfigDiags,
                    State := some { req.Config with
                      Version := TfInt64.known (float64ToInt64 rt.outOfRange version) } }
      | none => Except.error GoPanic.typeAssertion := by
  have hread : Read rt d req =
      (do
        let data ← assertMap (mapIndex (rt.Unmarshal body) (goStr "data"))
        let version ← assertFloat64 (mapIndex data (goStr "current_version"))
        pure { Diagnostics := req.ConfigDiags,
               State := some { req.Config with
                 Version := TfInt64.known (float64ToInt64 rt.outOfRange version) } }) := by
    simp [Read, hcfg, hpd, hx]
  rw [hread]
  unfold versionEnvelope
  cases h1 : mapIndex (rt.Unmarshal body) (goStr "data") with
  | object data =>
    simp only [assertMap, bind, Except.bind, pure, Except.pure]
    cases h2 : mapIndex data (goStr "current_version") <;>
      simp [assertFloat64, h2, throw, throwThe, MonadExceptOf.throw, pure, Except.pure]
  | _ => simp [assertMap, bind, Except.bind, throw, throwThe, MonadExceptOf.throw]

/-- `Read` on a response with any other status: version 0. -/
theorem Read_fallback (rt : Runtime) (d : VaultSecretVersionDataSource) (req : ReadRequest)
    (pd : VaultsecProviderModel) (status : Int) (body : GoString)
    (hcfg : HasError req.ConfigDiags = false) (hpd : d.providerData = some pd)
    (hx : rt.exchange
        (metadataURL pd.Address.ValueString req.Config.Mount.ValueString
          req.Config.Name.ValueString)
        pd.Token.ValueString = Exchange.response status body)
    (hstatus : status ≠ 200) :
    Read rt d req =
      Except.ok { Diagnostics := req.ConfigDiags,
                  State := some { req.Config with Version := TfInt64.known 0 } } := by
  simp only [Read, hcfg, hpd, hx, hstatus]
  rfl

theorem effectiveKey_ne_nil (key : GoString) : effectiveKey key ≠ [] := by
  unfold effectiveKey
  split
  · decide
  · assumption

/-! ## Claims -/

/-- C1 (amended). For every length from 0 to the allocation limit `maxAlloc`, every list of
variadic arguments (none, or an override) and every outcome of the random source,
`randomPassword` returns, without a panic, a string of exactly `length` bytes, each of them
a byte of the combined character set: the 62 base symbols followed by the override, or by
the default symbols when no override is passed. Each byte then also lies in the set as the
specification words it (`specCharset`). -/
theorem randomPassword_length_and_charset (random : Nat → Nat) (length : Int)
    (specials : List GoString) (hlen : 0 ≤ length) (hmax : length ≤ maxAlloc) :
    ∃ pw : GoString, randomPassword random length specials = Except.ok pw ∧
      (pw.length : Int) = length ∧
      (∀ c ∈ pw, c ∈ baseCharset ++ specials.headD defaultSpecials) ∧
      (∀ c ∈ pw, c ∈ specCharset (specials.headD [])) ∧
      baseCharset.length = 62 := by
  obtain ⟨pw, hpw, hl, hmem⟩ := randomPassword_spec random length specials hlen hmax
  refine ⟨pw, hpw, hl, ?_, ?_, baseCharset_length⟩
  · intro c hc
    have := hmem c hc
    cases specials with
    | nil => simpa [charsetOf] using this
    | cons s rest => simpa [charsetOf] using this
  · intro c hc
    have := hmem c hc
    cases specials with
    | nil => simpa [charsetOf, specCharset] using this
    | cons s rest =>
      apply mem_specCharset_of_mem
      simpa [charsetOf] using this

/-- C1 (amended), at a concrete input: 3 bytes over the base set extended by the override
`-_`. -/
theorem randomPassword_length_and_charset_witness :
    ∃ pw : GoString, randomPassword (fun i => 61 + i) 3 [goStr "-_"] = Except.ok pw ∧
      (pw.length : Int) = 3 ∧
      (∀ c ∈ pw, c ∈ baseCharset ++ [goStr "-_"].headD defaultSpecials) ∧
      (∀ c ∈ pw, c ∈ specCharset ([goStr "-_"].headD [])) ∧
      baseCharset.length = 62 :=
  randomPassword_length_and_charset (fun i => 61 + i) 3 [goStr "-_"] (by decide) (by decide)

/-- C1 as stated fails. At `length = 1 << 62`, which is `>= 0`, `make([]byte, length)`
panics and nothing is returned. And a string of `length` characters of the set is not what
is built: with the override `é` (two bytes) and `length = 1` the outcome 62 of the random
source yields the single byte `0xC3`, which is the encoding of no character of the set. -/
theorem randomPassword_length_and_charset_counterexample :
    (0 : Int) ≤ 4611686018427387904 ∧
    randomPassword (fun i => i) 4611686018427387904 [goStr "-_"] =
      Except.error GoPanic.makesliceLen ∧
    randomPassword (fun _ => 62) 1 [goStr "é"] = Except.ok [195] ∧
    (∀ ch ∈ sampleAccentedCharset, goStr (String.singleton ch) ≠ [195]) := by
  refine ⟨by decide, ?_, ?_, by decide⟩
  · exact randomPassword_out_of_bounds _ _ _ (Or.inr (by decide))
  · rfl

/-- C2. A negative length makes `randomPassword` panic in `make([]byte, length)`; it does not
return the empty string. Evaluated at `length = -1`, for every outcome of the random source
and every list of overrides, and through `Open` on a 404 response with `password_len = -1`. -/
theorem randomPassword_negative_length_panics :
    (∀ (random : Nat → Nat) (specials : List GoString),
      randomPassword random (-1) specials = Except.error GoPanic.makesliceLen) ∧
    (∀ random : Nat → Nat,
      Open (sampleRuntime (Exchange.response 404 []) random) { providerData := some sampleProvider }
        (sampleOpenRequest TfString.null (TfInt64.known (-1)) TfString.null) =
        Except.error GoPanic.makesliceLen) := by
  constructor
  · intro random specials
    rfl
  · intro random
    rfl

/-- C3. When `Open` falls back with no override configured, the generator draws from the 62
base symbols only: `Open` always passes its (empty) override as the variadic argument, so
the default symbols of line 126 are never appended and none of them is ever drawn. Evaluated
on a 404 response with `password_len = 12`, for every outcome of the random source. -/
theorem Open_fallback_without_override_draws_base_only :
    ∀ random : Nat → Nat, ∃ pw : GoString,
      Open (sampleRuntime (Exchange.response 404 []) random) { providerData := some sampleProvider }
        (sampleOpenRequest TfString.null (TfInt64.known 12) TfString.null) =
        Except.ok { Diagnostics := [],
                    Result := some { (sampleOpenRequest TfString.null (TfInt64.known 12)
                        TfString.null).Config with
                      Password := TfString.known pw,
                      Version := TfInt64.known 1 } } ∧
      pw.length = 12 ∧
      ∀ c ∈ pw, c ∈ baseCharset ∧ c ∉ defaultSpecials := by
  intro random
  obtain ⟨pw, hpw, hl, hmem⟩ :=
    fillFrom_spec random (charsetOf [[]]) (charsetOf_length_pos [[]]) 12 0
  refine ⟨pw, ?_, hl, ?_⟩
  · rw [Open_fallback (sampleRuntime (Exchange.response 404 []) random)
      { providerData := some sampleProvider }
      (sampleOpenRequest TfString.null (TfInt64.known 12) TfString.null)
      sampleProvider 404 [] rfl rfl rfl (by decide)]
    have hrp : randomPassword random 12 [[]] = Except.ok pw := by
      rw [randomPassword_of_bounds random 12 [[]] (by decide) (by decide)]
      exact hpw
    show Except.map _ (randomPassword random 12 [[]]) = _
    rw [hrp]
    rfl
  · intro c hc
    have hbase : c ∈ baseCharset := by simpa [charsetOf] using hmem c hc
    refine ⟨hbase, ?_⟩
    have hdisj : ∀ x ∈ baseCharset, x ∉ defaultSpecials := by decide
    exact hdisj c hbase

/-- C5 (amended). On a response with a status other than 200, in particular every
non-success status, and a length `n` from 0 to the allocation limit `maxAlloc`, `Open` does
not fail and returns the full fallback whatever the body is: a value of exactly `n` bytes,
each from the generator's character set (the base symbols followed by the override, a subset
of `specCharset`), together with version 1. -/
theorem Open_fallback_on_failure_status (rt : Runtime) (e : VaultSecretEphemeralResource)
    (req : OpenRequest) (pd : VaultsecProviderModel) (status : Int) (body : GoString)
    (hcfg : HasError req.ConfigDiags = false) (hpd : e.providerData = some pd)
    (hx : rt.exchange
        (dataURL pd.Address.ValueString req.Config.Mount.ValueString req.Config.Name.ValueString)
        pd.Token.ValueString = Exchange.response status body)
    (hstatus : status ≠ 200) (hlen : 0 ≤ req.Config.PasswordLen.ValueInt64)
    (hmax : req.Config.PasswordLen.ValueInt64 ≤ maxAlloc) :
    ∃ pw : GoString,
      Open rt e req =
        Except.ok { Diagnostics := req.ConfigDiags,
                    Result := some { req.Config with
                      Password := TfString.known pw,
                      Version := TfInt64.known 1 } } ∧
      (pw.length : Int) = req.Config.PasswordLen.ValueInt64 ∧
      (∀ c ∈ pw, c ∈ baseCharset ++ req.Config.OverrideSpecial.ValueString) ∧
      ∀ c ∈ pw, c ∈ specCharset req.Config.OverrideSpecial.ValueString := by
  obtain ⟨pw, hrp, hl, hmem⟩ := randomPassword_spec rt.random
    req.Config.PasswordLen.ValueInt64 [req.Config.OverrideSpecial.ValueString] hlen hmax
  have hcode : ∀ c ∈ pw, c ∈ baseCharset ++ req.Config.OverrideSpecial.ValueString := by
    intro c hc
    simpa [charsetOf] using hmem c hc
  refine ⟨pw, ?_, hl, hcode, ?_⟩
  · rw [Open_fallback rt e req pd status body hcfg hpd hx hstatus, hrp]
    rfl
  · intro c hc
    exact mem_specCharset_of_mem _ c (hcode c hc)

/-- C5 (amended), on the example of the specification: status 404 with length 12. -/
theorem Open_fallback_on_failure_status_witness :
    ∃ pw : GoString,
      Open (sampleRuntime (Exchange.response 404 []) (fun i => i))
          { providerData := some sampleProvider }
          (sampleOpenRequest TfString.null (TfInt64.known 12) TfString.null) =
        Except.ok { Diagnostics := [],
                    Result := some { (sampleOpenRequest TfString.null (TfInt64.known 12)
                        TfString.null).Config with
                      Password := TfString.known pw,
                      Version := TfInt64.known 1 } } ∧
      (pw.length : Int) = 12 ∧
      (∀ c ∈ pw, c ∈ baseCharset ++ []) ∧
      ∀ c ∈ pw, c ∈ specCharset [] :=
  Open_fallback_on_failure_status
    (sampleRuntime (Exchange.response 404 []) (fun i => i))
    { providerData := some sampleProvider }
    (sampleOpenRequest TfString.null (TfInt64.known 12) TfString.null)
    sampleProvider 404 [] rfl rfl rfl (by decide) (by decide) (by decide)

/-- C5 as stated fails. On a 404 response with `password_len = 1 << 62`, which is `>= 0`,
`Open` panics in `make([]byte, length)` and returns nothing. And with the override `é` and
`password_len = 1` the outcome 62 of the random source gives the value of the single byte
`0xC3`, the encoding of no character of the set. -/
theorem Open_fallback_on_failure_status_counterexample :
    (0 : Int) ≤ 4611686018427387904 ∧
    Open (sampleRuntime (Exchange.response 404 []) (fun i => i))
        { providerData := some sampleProvider }
        (sampleOpenRequest TfString.null (TfInt64.known 4611686018427387904) TfString.null) =
      Except.error GoPanic.makesliceLen ∧
    Open (sampleRuntime (Exchange.response 404 []) (fun _ => 62))
        { providerData := some sampleProvider }
        (sampleOpenRequest TfString.null (TfInt64.known 1) (TfString.known (goStr "é"))) =
      Except.ok { Diagnostics := [],
                  Result := some { (sampleOpenRequest TfString.null (TfInt64.known 1)
                      (TfString.known (goStr "é"))).Config with
                    Password := TfString.known [195],
                    Version := TfInt64.known 1 } } ∧
    (∀ ch ∈ sampleAccentedCharset, goStr (String.singleton ch) ≠ [195]) := by
  refine ⟨by decide, ?_, ?_, by decide⟩
  · rw [Open_fallback (sampleRuntime (Exchange.response 404 []) (fun i => i))
      { providerData := some sampleProvider }
      (sampleOpenRequest TfString.null (TfInt64.known 4611686018427387904) TfString.null)
      sampleProvider 404 [] rfl rfl rfl (by decide)]
    have hrp : randomPassword (fun i => i) 4611686018427387904 [[]] =
        Except.error GoPanic.makesliceLen :=
      randomPassword_out_of_bounds _ _ _ (Or.inr (by decide))
    show Except.map _ (randomPassword (fun i => i) 4611686018427387904 [[]]) = _
    rw [hrp]
    rfl
  · rfl

/-- C7. When the HTTP exchange itself fails, `Open` and `Read` each add the error diagnostic
`vault request failed` (with the cause) and return without setting a result: `Open` sets no
value and no version (no generated password, no version 1), `Read` sets no version (no
sentinel 0). -/
theorem transport_failure_is_fatal (rt : Runtime)
    (e : VaultSecretEphemeralResource) (oreq : OpenRequest)
    (d : VaultSecretVersionDataSource) (rreq : ReadRequest)
    (pd pd2 : VaultsecProviderModel) (err err2 : GoString)
    (hcfg : HasError oreq.ConfigDiags = false) (hpd : e.providerData = some pd)
    (hx : rt.exchange
        (dataURL pd.Address.ValueString oreq.Config.Mount.ValueString
          oreq.Config.Name.ValueString)
        pd.Token.ValueString = Exchange.transportError err)
    (hcfg2 : HasError rreq.ConfigDiags = false) (hpd2 : d.providerData = some pd2)
    (hx2 : rt.exchange
        (metadataURL pd2.Address.ValueString rreq.Config.Mount.ValueString
          rreq.Config.Name.ValueString)
        pd2.Token.ValueString = Exchange.transportError err2) :
    Open rt e oreq =
      Except.ok { Diagnostics := oreq.ConfigDiags ++
                    [{ severity := Severity.error, summary := goStr "vault request failed",
                       detail := err }],
                  Result := none } ∧
    Read rt d rreq =
      Except.ok { Diagnostics := rreq.ConfigDiags ++
                    [{ severity := Severity.error, summary := goStr "vault request failed",
                       detail := err2 }],
                  State := none } ∧
    HasError (oreq.ConfigDiags ++
      [{ severity := Severity.error, summary := goStr "vault request failed",
         detail := err }]) = true ∧
    HasError (rreq.ConfigDiags ++
      [{ severity := Severity.error, summary := goStr "vault request failed",
         detail := err2 }]) = true := by
  refine ⟨?_, ?_, ?_, ?_⟩
  · simp only [Open, hcfg, hpd, hx]
    rfl
  · simp only [Read, hcfg2, hpd2, hx2]
    rfl
  · simp [HasError]
  · simp [HasError]

/-- C7, at a concrete input: the connection is refused. -/
theorem transport_failure_is_fatal_witness :
    Open (sampleRuntime (Exchange.transportError (goStr "connection refused")) (fun i => i))
        { providerData := some sampleProvider }
        (sampleOpenRequest TfString.null (TfInt64.known 12) TfString.null) =
      Except.ok { Diagnostics :=
                    [{ severity := Severity.error, summary := goStr "vault request failed",
                       detail := goStr "connection refused" }],
                  Result := none } ∧
    Read (sampleRuntime (Exchange.transportError (goStr "connection refused")) (fun i => i))
        { providerData := some sampleProvider } sampleReadRequest =
      Except.ok { Diagnostics :=
                    [{ severity := Severity.error, summary := goStr "vault request failed",
                       detail := goStr "connection refused" }],
                  State := none } :=
  have h := transport_failure_is_fatal
    (sampleRuntime (Exchange.transportError (goStr "connection refused")) (fun i => i))
    { providerData := some sampleProvider }
    (sampleOpenRequest TfString.null (TfInt64.known 12) TfString.null)
    { providerData := some sampleProvider } sampleReadRequest
    sampleProvider sampleProvider (goStr "connection refused") (goStr "connection refused")
    rfl rfl rfl rfl rfl rfl
  ⟨h.1, h.2.1⟩

/-- C8. The key `Open` extracts with is `password` when the configured key is empty and the
configured key itself when it is not, so it is never empty: on a status-200 response of the
expected shape the returned value is `data.data["password"]` in the first case and
`data.data[key]` in the second. -/
theorem Open_extracts_with_effective_key (rt : Runtime) (e : VaultSecretEphemeralResource)
    (req : OpenRequest) (pd : VaultsecProviderModel) (body : GoString)
    (hcfg : HasError req.ConfigDiags = false) (hpd : e.providerData = some pd)
    (hx : rt.exchange
        (dataURL pd.Address.ValueString req.Config.Mount.ValueString req.Config.Name.ValueString)
        pd.Token.ValueString = Exchange.response 200 body) :
    (req.Config.Key.ValueString = [] →
      effectiveKey req.Config.Key.ValueString = goStr "password" ∧
      ∀ (value : GoString) (version : Rat),
        envelope (goStr "password") (rt.Unmarshal body) = some (value, version) →
        Open rt e req =
          Except.ok { Diagnostics := req.ConfigDiags,
                      Result := some { req.Config with
                        Password := TfString.known value,
                        Version := TfInt64.known (float64ToInt64 rt.outOfRange version) } }) ∧
    (req.Config.Key.ValueString ≠ [] →
      effectiveKey req.Config.Key.ValueString = req.Config.Key.ValueString ∧
      ∀ (value : GoString) (version : Rat),
        envelope req.Config.Key.ValueString (rt.Unmarshal body) = some (value, version) →
        Open rt e req =
          Except.ok { Diagnostics := req.ConfigDiags,
                      Result := some { req.Config with
                        Password := TfString.known value,
                        Version := TfInt64.known (float64ToInt64 rt.outOfRange version) } }) ∧
    effectiveKey req.Config.Key.ValueString ≠ [] := by
  refine ⟨?_, ?_, effectiveKey_ne_nil _⟩
  · intro hk
    have hek : effectiveKey req.Config.Key.ValueString = goStr "password" := by
      simp [effectiveKey, hk]
    refine ⟨hek, ?_⟩
    intro value version henv
    rw [Open_found rt e req pd body hcfg hpd hx, hek, henv]
  · intro hk
    have hek : effectiveKey req.Config.Key.ValueString = req.Config.Key.ValueString := by
      simp [effectiveKey, hk]
    refine ⟨hek, ?_⟩
    intro value version henv
    rw [Open_found rt e req pd body hcfg hpd hx, hek, henv]

/-- C8, at a concrete input: no key is configured and the value stored under `password` is
returned. -/
theorem Open_extracts_with_effective_key_witness :
    Open (sampleRuntime (Exchange.response 200 sampleValueBody) (fun i => i))
        { providerData := some sampleProvider }
        (sampleOpenRequest TfString.null TfInt64.null TfString.null) =
      Except.ok { Diagnostics := [],
                  Result := some { (sampleOpenRequest TfString.null TfInt64.null
                      TfString.null).Config with
                    Password := TfString.known (goStr "p@ss"),
                    Version := TfInt64.known 3 } } :=
  ((Open_extracts_with_effective_key
    (sampleRuntime (Exchange.response 200 sampleValueBody) (fun i => i))
    { providerData := some sampleProvider }
    (sampleOpenRequest TfString.null TfInt64.null TfString.null)
    sampleProvider sampleValueBody rfl rfl rfl).1 rfl).2 (goStr "p@ss") 3 rfl

/-- C9. On a response with status 200 whose decoded body does not have the expected shape
(nothing decoded; `data`, `data.data` or `data.metadata` absent or not an object;
`data.data[key]` absent or not a string; `data.metadata.version` absent or not a number),
`Open` panics in a type assertion and produces no response at all: no fallback value with
version 1, and no mix of an extracted and a fallback field. -/
theorem Open_malformed_body_panics (rt : Runtime) (e : VaultSecretEphemeralResource)
    (req : OpenRequest) (pd : VaultsecProviderModel) (body : GoString)
    (hcfg : HasError req.ConfigDiags = false) (hpd : e.providerData = some pd)
    (hx : rt.exchange
        (dataURL pd.Address.ValueString req.Config.Mount.ValueString req.Config.Name.ValueString)
        pd.Token.ValueString = Exchange.response 200 body)
    (hshape : envelope (effectiveKey req.Config.Key.ValueString) (rt.Unmarshal body) = none) :
    Open rt e req = Except.error GoPanic.typeAssertion ∧
    ∀ resp : OpenResponse, Open rt e req ≠ Except.ok resp := by
  have h : Open rt e req = Except.error GoPanic.typeAssertion := by
    rw [Open_found rt e req pd body hcfg hpd hx, hshape]
  refine ⟨h, ?_⟩
  intro resp hresp
  rw [h] at hresp
  exact absurd hresp (by simp)

/-- C9, at concrete inputs: a body whose `data.metadata.version` is a string (the value is
present), and a body that is not JSON. -/
theorem Open_malformed_body_panics_witness :
    Open (sampleRuntime (Exchange.response 200 sampleMalformedBody) (fun i => i))
        { providerData := some sampleProvider }
        (sampleOpenRequest TfString.null (TfInt64.known 12) TfString.null) =
      Except.error GoPanic.typeAssertion ∧
    Open (sampleRuntime (Exchange.response 200 (goStr "not json")) (fun i => i))
        { providerData := some sampleProvider }
        (sampleOpenRequest TfString.null (TfInt64.known 12) TfString.null) =
      Except.error GoPanic.typeAssertion :=
  ⟨(Open_malformed_body_panics
      (sampleRuntime (Exchange.response 200 sampleMalformedBody) (fun i => i))
      { providerData := some sampleProvider }
      (sampleOpenRequest TfString.null (TfInt64.known 12) TfString.null)
      sampleProvider sampleMalformedBody rfl rfl rfl rfl).1,
   (Open_malformed_body_panics
      (sampleRuntime (Exchange.response 200 (goStr "not json")) (fun i => i))
      { providerData := some sampleProvider }
      (sampleOpenRequest TfString.null (TfInt64.known 12) TfString.null)
      sampleProvider (goStr "not json") rfl rfl rfl rfl).1⟩

/-- C10 (amended). Only status 200 counts as found. On every other status, 201 and 204
included, the outcome of neither resolver depends on the body or on how it would decode:
`Open` is the generator's outcome with version 1, a generated value for every length from 0
to the allocation limit `maxAlloc`, and `Read` returns version 0. -/
theorem only_status_200_is_found (rt : Runtime)
    (e : VaultSecretEphemeralResource) (oreq : OpenRequest)
    (d : VaultSecretVersionDataSource) (rreq : ReadRequest)
    (pd pd2 : VaultsecProviderModel) (status status2 : Int) (body body2 : GoString)
    (hcfg : HasError oreq.ConfigDiags = false) (hpd : e.providerData = some pd)
    (hx : rt.exchange
        (dataURL pd.Address.ValueString oreq.Config.Mount.ValueString
          oreq.Config.Name.ValueString)
        pd.Token.ValueString = Exchange.response status body)
    (hstatus : status ≠ 200)
    (hcfg2 : HasError rreq.ConfigDiags = false) (hpd2 : d.providerData = some pd2)
    (hx2 : rt.exchange
        (metadataURL pd2.Address.ValueString rreq.Config.Mount.ValueString
          rreq.Config.Name.ValueString)
        pd2.Token.ValueString = Exchange.response status2 body2)
    (hstatus2 : status2 ≠ 200) :
    Open rt e oreq =
      (randomPassword rt.random oreq.Config.PasswordLen.ValueInt64
          [oreq.Config.OverrideSpecial.ValueString]).map
        (fun pw =>
          { Diagnostics := oreq.ConfigDiags,
            Result := some { oreq.Config with
              Password := TfString.known pw,
              Version := TfInt64.known 1 } }) ∧
    (0 ≤ oreq.Config.PasswordLen.ValueInt64 → oreq.Config.PasswordLen.ValueInt64 ≤ maxAlloc →
      ∃ pw : GoString,
        randomPassword rt.random oreq.Config.PasswordLen.ValueInt64
          [oreq.Config.OverrideSpecial.ValueString] = Except.ok pw ∧
        Open rt e oreq =
          Except.ok { Diagnostics := oreq.ConfigDiags,
                      Result := some { oreq.Config with
                        Password := TfString.known pw,
                        Version := TfInt64.known 1 } }) ∧
    Read rt d rreq =
      Except.ok { Diagnostics := rreq.ConfigDiags,
                  State := some { rreq.Config with Version := TfInt64.known 0 } } ∧
    (∀ unmarshal : GoString → JMap,
      Open { rt with Unmarshal := unmarshal } e oreq = Open rt e oreq ∧
      Read { rt with Unmarshal := unmarshal } d rreq = Read rt d rreq) := by
  have hfb := Open_fallback rt e oreq pd status body hcfg hpd hx hstatus
  refine ⟨hfb, ?_, Read_fallback rt d rreq pd2 status2 body2 hcfg2 hpd2 hx2 hstatus2, ?_⟩
  · intro hlen hmax
    obtain ⟨pw, hpw, -, -⟩ := randomPassword_spec rt.random
      oreq.Config.PasswordLen.ValueInt64 [oreq.Config.OverrideSpecial.ValueString] hlen hmax
    refine ⟨pw, hpw, ?_⟩
    rw [hfb, hpw]; rfl
  · intro unmarshal
    constructor
    · rw [hfb, Open_fallback { rt with Unmarshal := unmarshal } e oreq pd status body hcfg hpd
        hx hstatus]
    · rw [Read_fallback rt d rreq pd2 status2 body2 hcfg2 hpd2 hx2 hstatus2,
        Read_fallback { rt with Unmarshal := unmarshal } d rreq pd2 status2 body2 hcfg2 hpd2
          hx2 hstatus2]

/-- C10 (amended), at a concrete input: status 204 for the value read and 201 for the
version read, each with a body that would decode. -/
theorem only_status_200_is_found_witness :
    (∃ pw : GoString,
      randomPassword (fun i => i) 4 [[]] = Except.ok pw ∧
      Open (sampleRuntime (Exchange.response 204 sampleValueBody) (fun i => i))
          { providerData := some sampleProvider }
          (sampleOpenRequest TfString.null (TfInt64.known 4) TfString.null) =
        Except.ok { Diagnostics := [],
                    Result := some { (sampleOpenRequest TfString.null (TfInt64.known 4)
                        TfString.null).Config with
                      Password := TfString.known pw,
                      Version := TfInt64.known 1 } }) ∧
    Read (sampleRuntime (Exchange.response 201 sampleVersionBody) (fun i => i))
        { providerData := some sampleProvider } sampleReadRequest =
      Except.ok { Diagnostics := [],
                  State := some { sampleReadRequest.Config with Version := TfInt64.known 0 } } :=
  ⟨(only_status_200_is_found
      (sampleRuntime (Exchange.response 204 sampleValueBody) (fun i => i))
      { providerData := some sampleProvider }
      (sampleOpenRequest TfString.null (TfInt64.known 4) TfString.null)
      { providerData := some sampleProvider } sampleReadRequest
      sampleProvider sampleProvider 204 204 sampleValueBody sampleValueBody
      rfl rfl rfl (by decide) rfl rfl rfl (by decide)).2.1 (by decide) (by decide),
   (only_status_200_is_found
      (sampleRuntime (Exchange.response 201 sampleVersionBody) (fun i => i))
      { providerData := some sampleProvider }
      (sampleOpenRequest TfString.null (TfInt64.known 4) TfString.null)
      { providerData := some sampleProvider } sampleReadRequest
      sampleProvider sampleProvider 201 201 sampleVersionBody sampleVersionBody
      rfl rfl rfl (by decide) rfl rfl rfl (by decide)).2.2.1⟩

/-- C10 as stated fails. On status 204 with `password_len = 1 << 62` the fallback is taken
and `Open` returns no generated value: `make([]byte, length)` panics. -/
theorem only_status_200_is_found_counterexample :
    (204 : Int) ≠ 200 ∧
    Open (sampleRuntime (Exchange.response 204 sampleValueBody) (fun i => i))
        { providerData := some sampleProvider }
        (sampleOpenRequest TfString.null (TfInt64.known 4611686018427387904) TfString.null) =
      Except.error GoPanic.makesliceLen := by
  refine ⟨by decide, ?_⟩
  rw [Open_fallback (sampleRuntime (Exchange.response 204 sampleValueBody) (fun i => i))
    { providerData := some sampleProvider }
    (sampleOpenRequest TfString.null (TfInt64.known 4611686018427387904) TfString.null)
    sampleProvider 204 sampleValueBody rfl rfl rfl (by decide)]
  have hrp : randomPassword (fun i => i) 4611686018427387904 [[]] =
      Except.error GoPanic.makesliceLen :=
    randomPassword_out_of_bounds _ _ _ (Or.inr (by decide))
  show Except.map _ (randomPassword (fun i => i) 4611686018427387904 [[]]) = _
  rw [hrp]
  rfl

end Vaultsec
